import Mathlib

/-!
# Exec service of clusterloader2 (`pkg/execservice/exec_service.go`)

A shallow embedding of the four exported functions of the package
(`SetUpExecService`, `TearDownExecService`, `RunCommand`, `GetPod`) as pure
functions over the package variable `podStore`.  Every call made to a
collaborator (the cluster client, the framework, the pod store, the
operating system, the random source, the mutex) is recorded, in program
order, in the list of calls an operation returns; the result of such a call
is an input of the operation.
-/

namespace ExecService

/-! ## Data model -/

/-- Go `error` value that is not nil; `Error` is the text of its `Error()` method. -/
structure GoError where
  Error : String
deriving DecidableEq, Repr

/-- The two fields of `corev1.Pod` that the package reads. -/
structure Pod where
  Namespace : String
  Name : String
deriving DecidableEq, Repr

/-- A non-nil `*measurementutil.PodStore`, identified by its address. -/
structure PodStore where
  addr : Nat
deriving DecidableEq, Repr

/-- The struct `measurementutil.ObjectSelector`. -/
structure ObjectSelector where
  Namespace : String
  LabelSelector : String
  FieldSelector : String
deriving DecidableEq, Repr

/-- The fields of `measurementutil.WaitForPodOptions` that `SetUpExecService` sets. -/
structure WaitForPodOptions where
  Selector : ObjectSelector
  DesiredPodCount : Nat
  CallerName : String
  WaitForPodsInterval : Nat
deriving DecidableEq, Repr

/-- A value stored in the template mapping (`map[string]interface{}`). -/
inductive MapValue where
  | str (s : String)
  | int (n : Nat)
deriving DecidableEq, Repr

/-! ## Constants of the package -/

def execDeploymentNamespace : String := "cluster-loader"

def execDeploymentName : String := "exec-pod"

def execDeploymentManifest : String :=
  "apiVersion: apps/v1\nkind: Deployment\nmetadata:\n  name: \x7b\x7b.Name\x7d\x7d\n  namespace: \x7b\x7b.Namespace\x7d\x7d\nspec:\n  replicas: \x7b\x7b.Replicas\x7d\x7d\n  selector:\n    matchLabels:\n       feature: exec\n  template:\n    metadata:\n       labels:\n         feature: exec\n    spec:\n      containers:\n      - name: agnhost\n        image: k8s.gcr.io/e2e-test-images/agnhost:2.32\n"

def execPodReplicas : Nat := 3

def execPodSelector : String := "feature = exec"

/-- Nanoseconds in `time.Second`. -/
def Second : Nat := 1000000000

/-- Nanoseconds in `time.Minute`. -/
def Minute : Nat := 60 * Second

def execPodCheckInterval : Nat := 10 * Second

def execPodCheckTimeout : Nat := 2 * Minute

def execServiceName : String := "Exec service"

/-! ## Calls to collaborators -/

/-- One call made by the package to code outside it, with the arguments that
identify it. -/
inductive Call where
  | Lock
  | Unlock
  | Infof (v : Nat) (msg : String)
  | CreateNamespace (ns : String)
  | TempDir
  | TempFile (dir : String) (pattern : String)
  | Write (file : String) (data : String)
  | Remove (file : String)
  | ApplyTemplatedManifests (file : String) (mapping : List (String × MapValue))
  | AfterFunc (d : Nat)
  | WaitForPods (options : WaitForPodOptions)
  | NewPodStore (selector : ObjectSelector)
  | PodStoreStop (store : PodStore)
  | DeleteNamespace (ns : String)
  | WaitForDeleteNamespace (ns : String)
  | PodStoreList (store : PodStore)
  | RandIntn (n : Nat)
  | CommandRun (args : List String)
deriving DecidableEq, Repr

/-- What an operation leaves behind: the value it returns, the package
variable `podStore` after it, and the calls it made, oldest first. -/
structure Ret (α : Type) where
  value : α
  podStore : Option PodStore
  calls : List Call

/-- The value built by `fmt.Errorf`: a fresh error whose text is the formatted message. -/
def Errorf (msg : String) : GoError := ⟨msg⟩

/-! ## SetUpExecService -/

/-- Results of the calls `SetUpExecService` delegates; `none` is a nil error.
A result is consulted only if the call is reached. -/
structure SetUpResults where
  CreateNamespace : Option GoError
  TempDir : String
  TempFile : String × Option GoError
  Write : Option GoError
  ApplyTemplatedManifests : Option GoError
  WaitForPods : Option GoError
  NewPodStore : Option PodStore × Option GoError

/-- The template mapping built at the start of `SetUpExecService`. -/
def setUpMapping : List (String × MapValue) :=
  [("Name", .str execDeploymentName),
   ("Namespace", .str execDeploymentNamespace),
   ("Replicas", .int execPodReplicas)]

/-- The selector both `WaitForPods` and `NewPodStore` receive. -/
def setUpSelector : ObjectSelector :=
  { Namespace := execDeploymentNamespace, LabelSelector := execPodSelector, FieldSelector := "" }

/-- The options `WaitForPods` receives. -/
def setUpOptions : WaitForPodOptions :=
  { Selector := setUpSelector, DesiredPodCount := execPodReplicas,
    CallerName := execServiceName, WaitForPodsInterval := execPodCheckInterval }

/-- Calls of `SetUpExecService` up to and including `CreateNamespace`. -/
def setUpCallsCreate (podStore : Option PodStore) : List Call :=
  [Call.Lock] ++
  (if podStore.isSome then [Call.Infof 3 (execServiceName ++ ": service already running!")] else []) ++
  [Call.Infof 2 (execServiceName ++ ": setting up service!"),
   Call.CreateNamespace execDeploymentNamespace]

/-- Embedding of `SetUpExecService`.  The deferred calls run in reverse order of
registration: `os.Remove` (registered only once the manifest is written) and
then `lock.Unlock`. -/
def SetUpExecService (r : SetUpResults) (podStore : Option PodStore) : Ret (Option GoError) :=
  let c1 := setUpCallsCreate podStore
  match r.CreateNamespace with
  | some err =>
    ⟨some (Errorf ("namespace " ++ execDeploymentNamespace ++ " creation error: " ++ err.Error)),
      podStore, c1 ++ [Call.Unlock]⟩
  | none =>
    let c2 := c1 ++ [Call.TempDir, Call.TempFile r.TempDir "clusterloader2-exec-deployment-"]
    match r.TempFile with
    | (_, some err) =>
      ⟨some (Errorf ("failed to create tempfile for exec deployment manifest: " ++ err.Error)),
        podStore, c2 ++ [Call.Unlock]⟩
    | (tmpFile, none) =>
      let c3 := c2 ++ [Call.Write tmpFile execDeploymentManifest]
      match r.Write with
      | some err =>
        ⟨some (Errorf ("failed to write to tempfile for exec deployment manifest: " ++ err.Error)),
          podStore, c3 ++ [Call.Unlock]⟩
      | none =>
        let c4 := c3 ++ [Call.ApplyTemplatedManifests tmpFile setUpMapping]
        match r.ApplyTemplatedManifests with
        | some err =>
          ⟨some (Errorf ("pod " ++ execDeploymentName ++ " creation error: " ++ err.Error)),
            podStore, c4 ++ [Call.Remove tmpFile, Call.Unlock]⟩
        | none =>
          let c5 := c4 ++ [Call.AfterFunc execPodCheckTimeout, Call.WaitForPods setUpOptions]
          match r.WaitForPods with
          | some err => ⟨some err, podStore, c5 ++ [Call.Remove tmpFile, Call.Unlock]⟩
          | none =>
            let c6 := c5 ++ [Call.NewPodStore setUpSelector]
            match r.NewPodStore with
            | (store, some err) =>
              ⟨some (Errorf ("pod store creation error: " ++ err.Error)),
                store, c6 ++ [Call.Remove tmpFile, Call.Unlock]⟩
            | (store, none) =>
              ⟨none, store,
                c6 ++ [Call.Infof 2 (execServiceName ++ ": service set up successfully!"),
                       Call.Remove tmpFile, Call.Unlock]⟩

/-! ## TearDownExecService -/

/-- Results of the calls `TearDownExecService` delegates. -/
structure TearDownResults where
  DeleteNamespace : Option GoError
  WaitForDeleteNamespace : Option GoError

/-- Calls of `TearDownExecService` up to and including `DeleteNamespace`. -/
def tearDownCallsDelete (podStore : Option PodStore) : List Call :=
  [Call.Lock, Call.Infof 2 (execServiceName ++ ": tearing down service")] ++
  (match podStore with
   | some store => [Call.PodStoreStop store]
   | none => []) ++
  [Call.DeleteNamespace execDeploymentNamespace]

/-- Embedding of `TearDownExecService`. -/
def TearDownExecService (r : TearDownResults) (podStore : Option PodStore) : Ret (Option GoError) :=
  let c1 := tearDownCallsDelete podStore
  match r.DeleteNamespace with
  | some err =>
    ⟨some (Errorf ("deleting " ++ execDeploymentNamespace ++ " namespace error: " ++ err.Error)),
      none, c1 ++ [Call.Unlock]⟩
  | none =>
    let c2 := c1 ++ [Call.WaitForDeleteNamespace execDeploymentNamespace]
    match r.WaitForDeleteNamespace with
    | some err => ⟨some err, none, c2 ++ [Call.Unlock]⟩
    | none => ⟨none, none, c2 ++ [Call.Unlock]⟩

/-! ## RunCommand -/

/-- What running the `kubectl` command gives: the bytes written to the two
buffers and the error of `c.Run()`. -/
structure RunResult where
  stdout : String
  stderr : String
  err : Option GoError

/-- The argument vector `exec.Command` receives. -/
def runCommandArgs (pod : Pod) (cmd : String) : List String :=
  ["kubectl", "exec", "--namespace=" ++ pod.Namespace, pod.Name, "--", "/bin/sh", "-x", "-c", cmd]

/-- Embedding of `RunCommand`; `run` is the remote execution transport. -/
def RunCommand (run : List String → RunResult) (pod : Pod) (cmd : String)
    (podStore : Option PodStore) : Ret (String × Option GoError) :=
  let c := run (runCommandArgs pod cmd)
  match c.err with
  | some err => ⟨(c.stderr, some err), podStore, [Call.CommandRun (runCommandArgs pod cmd)]⟩
  | none => ⟨(c.stdout, none), podStore, [Call.CommandRun (runCommandArgs pod cmd)]⟩

/-! ## GetPod -/

/-- Results of the calls `GetPod` delegates: the snapshot `podStore.List()`
returns and the number `rand.Intn(n)` returns. -/
structure GetPodResults where
  snapshot : PodStore → List Pod
  Intn : Nat → Nat

/-- How a call of `GetPod` ends: it returns its pair of results, or the
index expression panics (index out of range). -/
inductive GetPodValue where
  | returns (pod : Option Pod) (err : Option GoError)
  | panics
deriving DecidableEq, Repr

/-- Embedding of `GetPod`. -/
def GetPod (r : GetPodResults) (podStore : Option PodStore) : Ret GetPodValue :=
  match podStore with
  | none => ⟨.returns none (some (Errorf "exec service not started")), podStore, [Call.Lock, Call.Unlock]⟩
  | some store =>
    let pods := r.snapshot store
    if pods.length = 0 then
      ⟨.returns none (some (Errorf "no exec pods found")), podStore,
        [Call.Lock, Call.PodStoreList store, Call.Unlock]⟩
    else
      let c := [Call.Lock, Call.PodStoreList store, Call.RandIntn pods.length, Call.Unlock]
      match pods[r.Intn pods.length]? with
      | some pod => ⟨.returns (some pod) none, podStore, c⟩
      | none => ⟨.panics, podStore, c⟩

/-! ## Histories of calls -/

/-- One call of an operation that takes the lock, with the results its
delegated calls will give. -/
inductive Op where
  | SetUp (r : SetUpResults)
  | TearDown (r : TearDownResults)
  | GetPod (r : GetPodResults)

/-- The package variable after one call. -/
def afterOp (podStore : Option PodStore) : Op → Option PodStore
  | .SetUp r => (SetUpExecService r podStore).podStore
  | .TearDown r => (TearDownExecService r podStore).podStore
  | .GetPod r => (GetPod r podStore).podStore

/-- The package variable after a sequence of calls made from the initial
state, in which `podStore` is nil. -/
def afterOps (ops : List Op) : Option PodStore :=
  ops.foldl afterOp none

/-- No `SetUp` of the history returned nil, and a failing `NewPodStore`
returned a nil store together with its error. -/
def NoSetUpSucceeded (ops : List Op) : Prop :=
  ∀ r, Op.SetUp r ∈ ops →
    (∀ s, (SetUpExecService r s).value ≠ none) ∧ (r.NewPodStore.2 ≠ none → r.NewPodStore.1 = none)

/-- The call of `SetUp` reaches `WaitForPods` and `WaitForPods` returns nil:
every earlier delegated step and the readiness wait itself gave no error. -/
def waitForPodsOk (r : SetUpResults) : Prop :=
  r.CreateNamespace = none ∧ r.TempFile.2 = none ∧ r.Write = none ∧
    r.ApplyTemplatedManifests = none ∧ r.WaitForPods = none

instance (r : SetUpResults) : Decidable (waitForPodsOk r) := by
  unfold waitForPodsOk; infer_instance

/-- The operation is a `SetUp` that completed its readiness wait without error. -/
def Op.completedWait : Op → Prop
  | .SetUp r => waitForPodsOk r
  | _ => False

/-- The operation is a `TearDown`. -/
def Op.isTearDown : Op → Prop
  | .TearDown _ => True
  | _ => False

/-- The operation is a `SetUp` that completed its readiness wait without error
and got a store from `NewPodStore`. -/
def Op.gotStore : Op → Prop
  | .SetUp r => waitForPodsOk r ∧ r.NewPodStore.1 ≠ none
  | _ => False

/-- The operation is a `SetUp` that completed its readiness wait without error
and got a nil store from `NewPodStore`. -/
def Op.gotNil : Op → Prop
  | .SetUp r => waitForPodsOk r ∧ r.NewPodStore.1 = none
  | _ => False

/-- Some operation of the history satisfies `P` and none after it satisfies `Q`. -/
def SinceLast (P Q : Op → Prop) (ops : List Op) : Prop :=
  ∃ pre op post, ops = pre ++ op :: post ∧ P op ∧ ∀ later ∈ post, ¬ Q later

/-- The condition of the invariant as the specification words it: some earlier
`SetUp` completed its readiness wait without error and no `TearDown` has
completed since. -/
def StatedPresence (ops : List Op) : Prop :=
  SinceLast Op.completedWait Op.isTearDown ops

/-- The condition that the code maintains: some earlier `SetUp` completed its
readiness wait and got a store, and since then there was no `TearDown` and no
`SetUp` that completed its readiness wait and got a nil store. -/
def ActualPresence (ops : List Op) : Prop :=
  SinceLast Op.gotStore (fun op => Op.isTearDown op ∨ Op.gotNil op) ops

/-- Results of a `SetUp` in which every step succeeds and `NewPodStore`
returns the store at address 1. -/
def setUpAllOk : SetUpResults :=
  { CreateNamespace := none, TempDir := "/tmp", TempFile := ("/tmp/clusterloader2-exec-deployment-1", none),
    Write := none, ApplyTemplatedManifests := none, WaitForPods := none,
    NewPodStore := (some ⟨1⟩, none) }

/-- Results of a `SetUp` whose readiness wait succeeds and whose `NewPodStore`
fails, returning a nil store and an error. -/
def setUpStoreFails : SetUpResults :=
  { setUpAllOk with NewPodStore := (none, some ⟨"watch failed"⟩) }

/-- Results of a `SetUp` whose first step, `CreateNamespace`, fails. -/
def setUpNamespaceFails : SetUpResults :=
  { setUpAllOk with CreateNamespace := some ⟨"forbidden"⟩ }

/-- Results of a `SetUp` whose readiness wait fails. -/
def setUpWaitFails : SetUpResults :=
  { setUpAllOk with WaitForPods := some ⟨"timeout"⟩ }

/-- A snapshot of `n` pods that are pairwise different. -/
def distinctPods (n : Nat) : List Pod :=
  (List.range n).map (fun j => ⟨"cluster-loader", String.mk (List.replicate j 'p')⟩)

/-- The call is a `Stop` on a pod store. -/
def Call.isStop : Call → Bool
  | .PodStoreStop _ => true
  | _ => false

/-- The delegated steps of SetUp and TearDown whose error ends the operation. -/
inductive Step where
  | CreateNamespace
  | TempFile
  | Write
  | ApplyTemplatedManifests
  | WaitForPods
  | NewPodStore
  | DeleteNamespace
  | WaitForDeleteNamespace
deriving DecidableEq, Repr

/-- The delegated step a call is, if it is one. -/
def Call.step : Call → Option Step
  | .CreateNamespace _ => some .CreateNamespace
  | .TempFile _ _ => some .TempFile
  | .Write _ _ => some .Write
  | .ApplyTemplatedManifests _ _ => some .ApplyTemplatedManifests
  | .WaitForPods _ => some .WaitForPods
  | .NewPodStore _ => some .NewPodStore
  | .DeleteNamespace _ => some .DeleteNamespace
  | .WaitForDeleteNamespace _ => some .WaitForDeleteNamespace
  | _ => none

/-- The delegated steps among the calls made, in order. -/
def stepsCalled (calls : List Call) : List Step :=
  calls.filterMap Call.step

/-- The error `ret` wraps `e` with call-site context: its text is the text of
`e` preceded by a context that is not empty. -/
def WrapsWithContext (ret e : GoError) : Prop :=
  ∃ ctx : String, ctx ≠ "" ∧ ret.Error = ctx ++ e.Error

/-- Results of a `TearDown` whose `DeleteNamespace` fails. -/
def tearDownDeleteFails : TearDownResults :=
  { DeleteNamespace := some ⟨"forbidden"⟩, WaitForDeleteNamespace := none }

/-- Results of a `TearDown` whose `WaitForDeleteNamespace` fails. -/
def tearDownWaitFails : TearDownResults :=
  { DeleteNamespace := none, WaitForDeleteNamespace := some ⟨"timeout"⟩ }

/-- A transport whose command fails after writing "boom" to its standard error. -/
def boomTransport : List String → RunResult :=
  fun _ => { stdout := "partial", stderr := "boom", err := some ⟨"exit status 1"⟩ }

/-! ## Lemmas on `SetUpExecService` -/

/-- A failing `SetUp` leaves the variable as it was, unless the failing step is
`NewPodStore`, whose returned store is then the variable. -/
theorem setUp_failed_podStore (r : SetUpResults) (s : Option PodStore)
    (h : (SetUpExecService r s).value ≠ none) :
    (SetUpExecService r s).podStore = s ∨
      (r.NewPodStore.2 ≠ none ∧ (SetUpExecService r s).podStore = r.NewPodStore.1) := by
  obtain ⟨cn, td, ⟨tf, tfe⟩, wr, ap, wp, ⟨st, ste⟩⟩ := r
  cases cn <;> cases tfe <;> cases wr <;> cases ap <;> cases wp <;> cases ste <;>
    simp_all [SetUpExecService]

theorem afterOps_snoc (ops : List Op) (op : Op) :
    afterOps (ops ++ [op]) = afterOp (afterOps ops) op := by
  simp [afterOps, List.foldl_append]

theorem afterOps_of_noSetUpSucceeded (ops : List Op) (h : NoSetUpSucceeded ops) :
    afterOps ops = none := by
  induction ops using List.reverseRecOn with
  | nil => rfl
  | append_singleton ops op ih =>
    have ih := ih (fun r hr => h r (by simp [hr]))
    rw [afterOps_snoc, ih]
    cases op with
    | SetUp r =>
      obtain ⟨hf, hc⟩ := h r (by simp)
      rcases setUp_failed_podStore r none (hf none) with h1 | ⟨h1, h2⟩
      · exact h1
      · simp [afterOp, h2, hc h1]
    | TearDown r =>
      obtain ⟨dn, wd⟩ := r
      cases dn <;> cases wd <;> rfl
    | GetPod r => rfl

/-! ## GetPod -/

/-- C1: in every state where `podStore` is nil (any such state, the initial
state, any state reached by a history in which no SetUp succeeded), GetPod
returns a nil pod with the error "exec service not started", makes no `List`
call on any pod store, and leaves `podStore` nil. -/
theorem GetPod_NotStarted (r : GetPodResults) (ops : List Op) (podStore : Option PodStore)
    (h : podStore = none ∨ podStore = afterOps [] ∨
      (podStore = afterOps ops ∧ NoSetUpSucceeded ops)) :
    (GetPod r podStore).value = .returns none (some ⟨"exec service not started"⟩) ∧
    (∀ store, Call.PodStoreList store ∉ (GetPod r podStore).calls) ∧
    (GetPod r podStore).calls = [Call.Lock, Call.Unlock] ∧
    (GetPod r podStore).podStore = none := by
  have hs : podStore = none := by
    rcases h with h | h | ⟨h, hn⟩
    · exact h
    · exact h
    · rw [h]; exact afterOps_of_noSetUpSucceeded ops hn
  subst hs
  simp [GetPod, Errorf]

/-- Witness of C1 at the initial state. -/
theorem GetPod_NotStarted_witness :
    (GetPod ⟨fun _ => [⟨"cluster-loader", "exec-pod-a"⟩], fun _ => 0⟩ (afterOps [])).value
      = .returns none (some ⟨"exec service not started"⟩) :=
  (GetPod_NotStarted ⟨fun _ => [⟨"cluster-loader", "exec-pod-a"⟩], fun _ => 0⟩ [] (afterOps [])
    (Or.inr (Or.inl rfl))).1

/-- C2: when `podStore` is set and its snapshot is empty, GetPod returns a nil
pod with the error "no exec pods found", draws no random index, and leaves
`podStore` as it was. -/
theorem GetPod_EmptyPool (r : GetPodResults) (store : PodStore) (h : r.snapshot store = []) :
    (GetPod r (some store)).value = .returns none (some ⟨"no exec pods found"⟩) ∧
    (∀ n, Call.RandIntn n ∉ (GetPod r (some store)).calls) ∧
    (GetPod r (some store)).calls = [Call.Lock, Call.PodStoreList store, Call.Unlock] ∧
    (GetPod r (some store)).podStore = some store := by
  simp [GetPod, Errorf, h]

/-- Witness of C2: a store whose snapshot is empty. -/
theorem GetPod_EmptyPool_witness :
    (GetPod ⟨fun _ => [], fun _ => 0⟩ (some ⟨7⟩)).value
      = .returns none (some ⟨"no exec pods found"⟩) :=
  (GetPod_EmptyPool ⟨fun _ => [], fun _ => 0⟩ ⟨7⟩ rfl).1

/-- A call of GetPod on a set `podStore` whose snapshot is `pods`, when the
draw is in range. -/
theorem getPod_value_of_lt (r : GetPodResults) (store : PodStore) (k : Nat)
    (hk : k < (r.snapshot store).length) (hr : r.Intn (r.snapshot store).length = k) :
    (GetPod r (some store)).value = .returns (r.snapshot store)[k]? none := by
  have hne : (r.snapshot store).length ≠ 0 := by omega
  simp only [GetPod, hne, if_false, hr]
  rw [List.getElem?_eq_getElem hk]

theorem distinctPods_length (n : Nat) : (distinctPods n).length = n := by
  simp [distinctPods]

theorem distinctPods_getElem? (n j : Nat) (hj : j < n) :
    (distinctPods n)[j]? = some ⟨"cluster-loader", String.mk (List.replicate j 'p')⟩ := by
  simp [distinctPods, List.getElem?_range hj]

theorem distinctPods_inj (n i j : Nat) (hi : i < n) (hj : j < n)
    (h : (distinctPods n)[i]? = (distinctPods n)[j]?) : i = j := by
  rw [distinctPods_getElem? n i hi, distinctPods_getElem? n j hj] at h
  have h1 := congrArg (fun o => o.map (fun pod => pod.Name.data.length)) h
  simpa using h1

/-- The positions of a list that hold `a` are as many as `a` occurs in it. -/
theorem count_positions (l : List Pod) (a : Pod) :
    ((List.range l.length).filter (fun j => decide (l[j]? = some a))).length = l.count a := by
  induction l using List.reverseRecOn with
  | nil => simp
  | append_singleton l b ih =>
    rw [List.length_append, List.length_singleton, List.range_succ, List.filter_append,
      List.length_append, List.count_append]
    congr 1
    · rw [← ih]
      congr 1
      apply List.filter_congr
      intro j hj
      have hj2 : j < l.length := List.mem_range.mp hj
      simp [List.getElem?_append_left hj2]
    · by_cases hb : b = a
      · subst hb
        simp
      · simp [hb, List.count_singleton]

/-- C3: when `podStore` is set and its snapshot `pods` has `n > 0` entries, for
every draw `k < n` GetPod returns, with a nil error and without panicking,
the pod at position `k`, which is a member of the snapshot, and leaves
`podStore` as it was; each position `i` is the one returned for exactly one
draw (whatever the snapshot of length `n`), the number of draws returning a
pod equals the number of positions holding it, and any call whose snapshot
and draw are the same returns the same pod, whatever happened before. -/
theorem GetPod_selects_position (r : GetPodResults) (store : PodStore) (pods : List Pod)
    (k : Nat) (hp : r.snapshot store = pods) (hn : pods ≠ []) (hk : k < pods.length)
    (hr : r.Intn pods.length = k) :
    (GetPod r (some store)).value = .returns pods[k]? none ∧
    (∃ pod, pods[k]? = some pod ∧ pod ∈ pods ∧
      (GetPod r (some store)).value = .returns (some pod) none) ∧
    (GetPod r (some store)).podStore = some store ∧
    (∀ i, i < pods.length → ∃! j, j < pods.length ∧
      ∀ (q : GetPodResults) (st : PodStore), (q.snapshot st).length = pods.length →
        q.Intn pods.length = j → (GetPod q (some st)).value = .returns (q.snapshot st)[i]? none) ∧
    (∀ pod, ((List.range pods.length).filter (fun j =>
        decide ((GetPod ⟨r.snapshot, fun _ => j⟩ (some store)).value
          = .returns (some pod) none))).length = pods.count pod) ∧
    (∀ (q : GetPodResults) (st : PodStore), q.snapshot st = pods →
      q.Intn pods.length = k →
      (GetPod q (some st)).value = (GetPod r (some store)).value) := by
  subst hp
  have hv := getPod_value_of_lt r store k hk hr
  refine ⟨hv, ?_, ?_, ?_, ?_, ?_⟩
  · refine ⟨(r.snapshot store)[k], List.getElem?_eq_getElem hk, List.getElem_mem _, ?_⟩
    rw [hv, List.getElem?_eq_getElem hk]
  · have hne : (r.snapshot store).length ≠ 0 := by omega
    simp only [GetPod, hne, if_false]
    split <;> rfl
  · intro i hi
    refine ⟨i, ⟨hi, ?_⟩, ?_⟩
    · intro q st hl hq
      exact getPod_value_of_lt q st i (by omega) (by rw [hl]; exact hq)
    · rintro j ⟨hj, hall⟩
      have h1 := hall ⟨fun _ => distinctPods (r.snapshot store).length, fun _ => j⟩ ⟨0⟩
        (distinctPods_length _) rfl
      have h2 := getPod_value_of_lt
        ⟨fun _ => distinctPods (r.snapshot store).length, fun _ => j⟩ ⟨0⟩ j
        (by simpa [distinctPods_length] using hj) rfl
      rw [h2] at h1
      simp only [GetPodValue.returns.injEq, and_true] at h1
      exact distinctPods_inj _ j i hj hi h1
  · intro pod
    have hfil : ∀ j ∈ List.range (r.snapshot store).length,
        decide ((GetPod ⟨r.snapshot, fun _ => j⟩ (some store)).value = .returns (some pod) none)
          = (fun j => decide ((r.snapshot store)[j]? = some pod)) j := by
      intro j hj
      have hj2 : j < (r.snapshot store).length := List.mem_range.mp hj
      have h3 := getPod_value_of_lt ⟨r.snapshot, fun _ => j⟩ store j hj2 rfl
      simp only [h3, GetPodValue.returns.injEq, and_true]
    rw [List.filter_congr hfil]
    exact count_positions (r.snapshot store) pod
  · intro q st hq hqk
    rw [hv, ← hq]
    exact getPod_value_of_lt q st k (by rw [hq]; exact hk) (by rw [hq]; exact hqk)

/-- Witness of C3: three pods, the draw is 1. -/
theorem GetPod_selects_position_witness :
    (GetPod ⟨fun _ => [⟨"cluster-loader", "a"⟩, ⟨"cluster-loader", "b"⟩, ⟨"cluster-loader", "c"⟩],
        fun _ => 1⟩ (some ⟨7⟩)).value
      = .returns (some ⟨"cluster-loader", "b"⟩) none :=
  (GetPod_selects_position
    ⟨fun _ => [⟨"cluster-loader", "a"⟩, ⟨"cluster-loader", "b"⟩, ⟨"cluster-loader", "c"⟩],
      fun _ => 1⟩ ⟨7⟩
    [⟨"cluster-loader", "a"⟩, ⟨"cluster-loader", "b"⟩, ⟨"cluster-loader", "c"⟩] 1
    rfl (by simp) (by decide) rfl).1

/-! ## The state of the service along a history -/

theorem waitForPodsOk_iff_called (r : SetUpResults) (s : Option PodStore) :
    waitForPodsOk r ↔
      (Call.WaitForPods setUpOptions ∈ (SetUpExecService r s).calls ∧ r.WaitForPods = none) := by
  obtain ⟨cn, td, ⟨tf, tfe⟩, wr, ap, wp, ⟨st, ste⟩⟩ := r
  cases cn <;> cases tfe <;> cases wr <;> cases ap <;> cases wp <;> cases ste <;>
    cases s <;> simp [SetUpExecService, waitForPodsOk, setUpCallsCreate]

theorem setUp_podStore_of_waitOk (r : SetUpResults) (s : Option PodStore)
    (h : waitForPodsOk r) : (SetUpExecService r s).podStore = r.NewPodStore.1 := by
  obtain ⟨cn, td, ⟨tf, tfe⟩, wr, ap, wp, ⟨st, ste⟩⟩ := r
  obtain ⟨h1, h2, h3, h4, h5⟩ := h
  simp only at h1 h2 h3 h4 h5
  subst h1 h2 h3 h4 h5
  cases ste <;> simp [SetUpExecService]

theorem setUp_podStore_of_not_waitOk (r : SetUpResults) (s : Option PodStore)
    (h : ¬ waitForPodsOk r) : (SetUpExecService r s).podStore = s := by
  obtain ⟨cn, td, ⟨tf, tfe⟩, wr, ap, wp, ⟨st, ste⟩⟩ := r
  cases cn <;> cases tfe <;> cases wr <;> cases ap <;> cases wp <;> cases ste <;>
    simp_all [SetUpExecService, waitForPodsOk]

theorem tearDown_podStore (r : TearDownResults) (s : Option PodStore) :
    (TearDownExecService r s).podStore = none := by
  obtain ⟨dn, wd⟩ := r
  cases dn <;> cases wd <;> rfl

theorem getPod_podStore (r : GetPodResults) (s : Option PodStore) :
    (GetPod r s).podStore = s := by
  cases s with
  | none => rfl
  | some store =>
    simp only [GetPod]
    split
    · rfl
    · split <;> rfl

theorem snoc_eq_append_cons {α : Type} (ops pre post : List α) (op x : α) :
    ops ++ [op] = pre ++ x :: post ↔
      (ops = pre ∧ op = x ∧ post = []) ∨ ∃ init, post = init ++ [op] ∧ ops = pre ++ x :: init := by
  rcases List.eq_nil_or_concat post with hp | ⟨init, y, hp⟩
  · subst hp
    constructor
    · intro h
      have h2 := List.append_inj' h rfl
      exact Or.inl ⟨h2.1, by simpa using h2.2, rfl⟩
    · rintro (⟨h1, h2, -⟩ | ⟨init, h1, -⟩)
      · rw [h1, h2]
      · simp at h1
  · rw [List.concat_eq_append] at hp
    subst hp
    have e : pre ++ x :: (init ++ [y]) = (pre ++ x :: init) ++ [y] := by simp
    rw [e]
    constructor
    · intro h
      have h2 := List.append_inj' h rfl
      refine Or.inr ⟨init, ?_, h2.1⟩
      have h3 : op = y := by simpa using h2.2
      rw [h3]
    · rintro (⟨-, -, h3⟩ | ⟨init2, h1, h2⟩)
      · simp at h3
      · have h4 := List.append_inj' h1 rfl
        have h5 : y = op := by simpa using h4.2
        rw [h2, h4.1, h5]

theorem sinceLast_nil (P Q : Op → Prop) : ¬ SinceLast P Q [] := by
  rintro ⟨pre, op, post, h, -⟩
  simp at h

theorem sinceLast_snoc (P Q : Op → Prop) (ops : List Op) (op : Op) :
    SinceLast P Q (ops ++ [op]) ↔ (P op ∨ (SinceLast P Q ops ∧ ¬ Q op)) := by
  constructor
  · rintro ⟨pre, x, post, h, hP, hQ⟩
    rcases (snoc_eq_append_cons ops pre post op x).mp h with ⟨-, h2, -⟩ | ⟨init, h1, h2⟩
    · exact Or.inl (h2 ▸ hP)
    · subst h1
      refine Or.inr ⟨⟨pre, x, init, h2, hP, fun l hl => hQ l (by simp [hl])⟩, hQ op (by simp)⟩
  · rintro (hP | ⟨⟨pre, x, post, h, hP, hQ⟩, hn⟩)
    · exact ⟨ops, op, [], rfl, hP, by simp⟩
    · refine ⟨pre, x, post ++ [op], by simp [h], hP, ?_⟩
      intro l hl
      rcases List.mem_append.mp hl with hl | hl
      · exact hQ l hl
      · have : l = op := by simpa using hl
        rw [this]; exact hn

theorem afterOp_isSome_iff (s : Option PodStore) (op : Op) :
    afterOp s op ≠ none ↔ (Op.gotStore op ∨ (s ≠ none ∧ ¬ (Op.isTearDown op ∨ Op.gotNil op))) := by
  cases op with
  | SetUp r =>
    by_cases hw : waitForPodsOk r
    · simp [afterOp, setUp_podStore_of_waitOk r s hw, Op.gotStore, Op.gotNil, Op.isTearDown, hw]
    · simp [afterOp, setUp_podStore_of_not_waitOk r s hw, Op.gotStore, Op.gotNil,
        Op.isTearDown, hw]
  | TearDown r => simp [afterOp, tearDown_podStore, Op.gotStore, Op.isTearDown]
  | GetPod r => simp [afterOp, getPod_podStore, Op.gotStore, Op.isTearDown, Op.gotNil]

/-- C4, as stated, fails: after the single call of a SetUp whose readiness wait
succeeds and whose `NewPodStore` fails, `podStore` is nil although a SetUp
completed its readiness wait without error and no TearDown followed. -/
theorem presence_as_stated_fails :
    ¬ (afterOps [Op.SetUp setUpStoreFails] ≠ none ↔ StatedPresence [Op.SetUp setUpStoreFails]) := by
  intro h
  have hs : StatedPresence [Op.SetUp setUpStoreFails] :=
    ⟨[], Op.SetUp setUpStoreFails, [], rfl,
      ⟨rfl, rfl, rfl, rfl, rfl⟩, by simp⟩
  exact h.mpr hs rfl

/-- C4, amended: in every state reached from the initial state by a sequence of
SetUp, TearDown and GetPod calls with any results of the delegated calls,
`podStore` is set if and only if some earlier SetUp completed its readiness
wait without error and got a store from `NewPodStore`, and since that call
there was neither a TearDown nor a SetUp that completed its readiness wait and
got a nil store. -/
theorem presence_invariant (ops : List Op) :
    afterOps ops ≠ none ↔ ActualPresence ops := by
  induction ops using List.reverseRecOn with
  | nil =>
    constructor
    · intro h; exact absurd rfl h
    · intro h; exact absurd h (sinceLast_nil _ _)
  | append_singleton ops op ih =>
    rw [afterOps_snoc, afterOp_isSome_iff, ih]
    exact (sinceLast_snoc _ _ ops op).symm

/-! ## Failing SetUp -/

/-- C5, as stated, fails: with `podStore` set by an earlier SetUp, a SetUp whose
`CreateNamespace` fails returns an error and leaves `podStore` set. -/
theorem SetUp_failure_keeps_present :
    (SetUpExecService setUpNamespaceFails (some ⟨1⟩)).value ≠ none ∧
    (SetUpExecService setUpNamespaceFails (some ⟨1⟩)).podStore = some ⟨1⟩ ∧
    afterOps [Op.SetUp setUpAllOk] = some ⟨1⟩ := by
  refine ⟨?_, rfl, rfl⟩
  simp [SetUpExecService, setUpNamespaceFails]

/-- C5, amended: a SetUp that returns an error because a step before the
pod-store construction failed leaves `podStore` exactly as it was; when the
pod-store construction is the failing step, `podStore` is what `NewPodStore`
returned; so, when `podStore` was nil before the call and a failing
`NewPodStore` returns a nil store, `podStore` is nil when the call returns. -/
theorem SetUp_failure_podStore (r : SetUpResults) (s : Option PodStore)
    (h : (SetUpExecService r s).value ≠ none) :
    (¬ waitForPodsOk r → (SetUpExecService r s).podStore = s) ∧
    (waitForPodsOk r →
      r.NewPodStore.2 ≠ none ∧ (SetUpExecService r s).podStore = r.NewPodStore.1) ∧
    (s = none → (r.NewPodStore.2 ≠ none → r.NewPodStore.1 = none) →
      (SetUpExecService r s).podStore = none) := by
  refine ⟨setUp_podStore_of_not_waitOk r s, ?_, ?_⟩
  · intro hw
    refine ⟨?_, setUp_podStore_of_waitOk r s hw⟩
    obtain ⟨cn, td, ⟨tf, tfe⟩, wr, ap, wp, ⟨st, ste⟩⟩ := r
    obtain ⟨h1, h2, h3, h4, h5⟩ := hw
    simp only at h1 h2 h3 h4 h5
    subst h1 h2 h3 h4 h5
    cases ste
    · simp [SetUpExecService] at h
    · simp
  · intro hs hc
    rcases setUp_failed_podStore r s h with h1 | ⟨h1, h2⟩
    · rw [h1, hs]
    · rw [h2, hc h1]

/-- Witness of C5 amended: from the initial state, a SetUp whose pod-store
construction fails leaves `podStore` nil. -/
theorem SetUp_failure_podStore_witness :
    (SetUpExecService setUpStoreFails none).value ≠ none ∧
    (SetUpExecService setUpStoreFails none).podStore = none :=
  ⟨by simp [SetUpExecService, setUpStoreFails, setUpAllOk],
   (SetUp_failure_podStore setUpStoreFails none
      (by simp [SetUpExecService, setUpStoreFails, setUpAllOk])).2.2 rfl (fun _ => rfl)⟩

/-! ## TearDown -/

/-- C6: whatever `podStore` was and whatever `DeleteNamespace` and
`WaitForDeleteNamespace` return, TearDown leaves `podStore` nil, so that the
next GetPod returns the error "exec service not started"; `Stop` is called
exactly once, on the store that was set, when `podStore` was set, and not at
all when it was nil; and the value TearDown returns is the same whatever
`podStore` was, fixed by the results of the namespace deletion alone. -/
theorem TearDown_clears (r : TearDownResults) (s : Option PodStore) (q : GetPodResults) :
    (TearDownExecService r s).podStore = none ∧
    (GetPod q (TearDownExecService r s).podStore).value
      = .returns none (some ⟨"exec service not started"⟩) ∧
    (GetPod q (afterOp s (.TearDown r))).value
      = .returns none (some ⟨"exec service not started"⟩) ∧
    (TearDownExecService r s).calls.filter Call.isStop
      = (match s with
         | some store => [Call.PodStoreStop store]
         | none => []) ∧
    ((TearDownExecService r s).calls.filter Call.isStop).length = (if s = none then 0 else 1) ∧
    (TearDownExecService r s).value = (TearDownExecService r none).value ∧
    (TearDownExecService r none).value
      = (match r.DeleteNamespace, r.WaitForDeleteNamespace with
         | some e, _ => some ⟨"deleting cluster-loader namespace error: " ++ e.Error⟩
         | none, some e => some e
         | none, none => none) := by
  obtain ⟨dn, wd⟩ := r
  cases dn <;> cases wd <;> cases s <;>
    simp [TearDownExecService, tearDownCallsDelete, GetPod, Errorf, afterOp, Call.isStop,
      execDeploymentNamespace, List.filter_cons]

/-! ## RunCommand -/

/-- C7: whatever the pod, the command and the result (stdout, stderr, err) of the
transport, RunCommand returns (stdout, nil) when err is nil and (stderr, err),
with that same error, when err is not nil; it leaves `podStore` as it was, its
result does not depend on `podStore`, and its only call is the run of the
command (it takes no lock). -/
theorem RunCommand_result (run : List String → RunResult) (pod : Pod) (cmd : String)
    (s : Option PodStore) (out errOut : String) (e : Option GoError)
    (h : run (runCommandArgs pod cmd) = ⟨out, errOut, e⟩) :
    (e = none → (RunCommand run pod cmd s).value = (out, none)) ∧
    (∀ err, e = some err → (RunCommand run pod cmd s).value = (errOut, some err)) ∧
    (RunCommand run pod cmd s).podStore = s ∧
    (∀ s2, (RunCommand run pod cmd s2).value = (RunCommand run pod cmd s).value) ∧
    (RunCommand run pod cmd s).calls = [Call.CommandRun (runCommandArgs pod cmd)] ∧
    Call.Lock ∉ (RunCommand run pod cmd s).calls := by
  cases e <;> simp [RunCommand, h]

/-- Witness of C7: a transport that fails and writes "boom" to stderr gives
("boom", the error). -/
theorem RunCommand_result_witness :
    (RunCommand boomTransport ⟨"cluster-loader", "exec-pod-a"⟩ "ls" none).value
      = ("boom", some ⟨"exit status 1"⟩) :=
  (RunCommand_result boomTransport ⟨"cluster-loader", "exec-pod-a"⟩ "ls" none
    "partial" "boom" (some ⟨"exit status 1"⟩) rfl).2.1 ⟨"exit status 1"⟩ rfl

/-! ## Propagation of delegated errors -/

theorem append_ne_self (ctx t : String) (h : ctx ≠ "") : ctx ++ t ≠ t := by
  intro heq
  have hl := congrArg String.length heq
  rw [String.length_append] at hl
  have h0 : ctx.length = 0 := by omega
  apply h
  cases ctx with
  | mk data =>
    have : data = [] := List.length_eq_zero.mp h0
    subst this
    rfl

theorem not_wrapsWithContext_self (e : GoError) : ¬ WrapsWithContext e e := by
  rintro ⟨ctx, hne, heq⟩
  exact append_ne_self ctx e.Error hne heq.symm

/-- C8, as stated, fails: when `DeleteNamespace` fails with the error
"forbidden", the error TearDown returns is not that error but a new one, with
the text "deleting cluster-loader namespace error: forbidden". -/
theorem TearDown_delete_error_not_as_is :
    (TearDownExecService tearDownDeleteFails none).value ≠ some ⟨"forbidden"⟩ ∧
    (TearDownExecService tearDownDeleteFails none).value
      = some ⟨"deleting cluster-loader namespace error: forbidden"⟩ := by
  constructor
  · simp only [TearDownExecService, tearDownDeleteFails, Errorf, execDeploymentNamespace]
    intro h
    have h2 : "deleting cluster-loader namespace error: " ++ "forbidden" = "forbidden" :=
      congrArg (fun o => (o.map GoError.Error).getD "") h
    exact append_ne_self _ _ (by decide) h2
  · rfl

/-- C8, amended: an error `e` of `WaitForDeleteNamespace` is returned by TearDown
as it is; an error `e` of `DeleteNamespace` is returned as a new error whose
text is "deleting cluster-loader namespace error: " followed by the text of
`e`; and TearDown returns nil only when both `DeleteNamespace` and
`WaitForDeleteNamespace` were called and returned nil. -/
theorem TearDown_returned_error (r : TearDownResults) (s : Option PodStore) :
    (∀ e, r.DeleteNamespace = some e →
      (TearDownExecService r s).value
        = some ⟨"deleting cluster-loader namespace error: " ++ e.Error⟩ ∧
      (TearDownExecService r s).value ≠ some e) ∧
    (∀ e, r.DeleteNamespace = none → r.WaitForDeleteNamespace = some e →
      (TearDownExecService r s).value = some e) ∧
    ((TearDownExecService r s).value = none →
      r.DeleteNamespace = none ∧ r.WaitForDeleteNamespace = none ∧
      stepsCalled (TearDownExecService r s).calls
        = [.DeleteNamespace, .WaitForDeleteNamespace]) := by
  obtain ⟨dn, wd⟩ := r
  refine ⟨?_, ?_, ?_⟩
  · intro e he
    simp only at he
    subst he
    have hv : (TearDownExecService ⟨some e, wd⟩ s).value
        = some ⟨"deleting cluster-loader namespace error: " ++ e.Error⟩ := by
      simp [TearDownExecService, Errorf, execDeploymentNamespace]
    refine ⟨hv, ?_⟩
    rw [hv]
    intro h
    have h2 : "deleting cluster-loader namespace error: " ++ e.Error = e.Error := by
      simpa using congrArg (fun o => o.map GoError.Error) h
    exact append_ne_self _ _ (by decide) h2
  · intro e h1 h2
    simp only at h1 h2
    subst h1 h2
    simp [TearDownExecService]
  · intro h
    cases dn <;> cases wd <;> cases s <;>
      simp_all [TearDownExecService, stepsCalled, tearDownCallsDelete, Call.step]

/-- Witness of C8 amended: an error of `WaitForDeleteNamespace` comes back as it is. -/
theorem TearDown_returned_error_witness :
    (TearDownExecService tearDownWaitFails (some ⟨1⟩)).value = some ⟨"timeout"⟩ :=
  (TearDown_returned_error tearDownWaitFails (some ⟨1⟩)).2.1 ⟨"timeout"⟩ rfl rfl

/-- C9, as stated, fails: when `WaitForPods` fails with the error "timeout",
SetUp returns that very error, whose text has no call-site context before the
text of the delegated error. -/
theorem SetUp_wait_error_not_wrapped :
    (SetUpExecService setUpWaitFails none).value = some ⟨"timeout"⟩ ∧
    ¬ ∃ ret, (SetUpExecService setUpWaitFails none).value = some ret ∧
      WrapsWithContext ret ⟨"timeout"⟩ := by
  have hv : (SetUpExecService setUpWaitFails none).value = some ⟨"timeout"⟩ := rfl
  refine ⟨hv, ?_⟩
  rintro ⟨ret, h1, h2⟩
  rw [hv] at h1
  cases h1
  exact not_wrapsWithContext_self _ h2

/-- C9, amended: in SetUp and TearDown the first delegated step that fails, with
error `e`, ends the operation: no later delegated step is called and a non-nil
error holding the text of `e` is returned.  For `CreateNamespace`, the
temp-file creation and write, `ApplyTemplatedManifests`, `NewPodStore` and
`DeleteNamespace` it is a new error whose text is a call-site context followed
by the text of `e`; for `WaitForPods` and `WaitForDeleteNamespace` it is `e`
itself, without context.  The operation returns nil if and only if every
delegated step returned nil. -/
theorem delegated_error_propagation (rs : SetUpResults) (rt : TearDownResults)
    (s : Option PodStore) :
    (∀ e, rs.CreateNamespace = some e →
      (SetUpExecService rs s).value
        = some ⟨"namespace cluster-loader creation error: " ++ e.Error⟩ ∧
      stepsCalled (SetUpExecService rs s).calls = [.CreateNamespace]) ∧
    (∀ e, rs.CreateNamespace = none → rs.TempFile.2 = some e →
      (SetUpExecService rs s).value
        = some ⟨"failed to create tempfile for exec deployment manifest: " ++ e.Error⟩ ∧
      stepsCalled (SetUpExecService rs s).calls = [.CreateNamespace, .TempFile]) ∧
    (∀ e, rs.CreateNamespace = none → rs.TempFile.2 = none → rs.Write = some e →
      (SetUpExecService rs s).value
        = some ⟨"failed to write to tempfile for exec deployment manifest: " ++ e.Error⟩ ∧
      stepsCalled (SetUpExecService rs s).calls = [.CreateNamespace, .TempFile, .Write]) ∧
    (∀ e, rs.CreateNamespace = none → rs.TempFile.2 = none → rs.Write = none →
      rs.ApplyTemplatedManifests = some e →
      (SetUpExecService rs s).value = some ⟨"pod exec-pod creation error: " ++ e.Error⟩ ∧
      stepsCalled (SetUpExecService rs s).calls
        = [.CreateNamespace, .TempFile, .Write, .ApplyTemplatedManifests]) ∧
    (∀ e, rs.CreateNamespace = none → rs.TempFile.2 = none → rs.Write = none →
      rs.ApplyTemplatedManifests = none → rs.WaitForPods = some e →
      (SetUpExecService rs s).value = some e ∧
      stepsCalled (SetUpExecService rs s).calls
        = [.CreateNamespace, .TempFile, .Write, .ApplyTemplatedManifests, .WaitForPods]) ∧
    (∀ e, waitForPodsOk rs → rs.NewPodStore.2 = some e →
      (SetUpExecService rs s).value = some ⟨"pod store creation error: " ++ e.Error⟩ ∧
      stepsCalled (SetUpExecService rs s).calls
        = [.CreateNamespace, .TempFile, .Write, .ApplyTemplatedManifests, .WaitForPods,
           .NewPodStore]) ∧
    ((SetUpExecService rs s).value = none ↔ (waitForPodsOk rs ∧ rs.NewPodStore.2 = none)) ∧
    (∀ e, rt.DeleteNamespace = some e →
      (TearDownExecService rt s).value
        = some ⟨"deleting cluster-loader namespace error: " ++ e.Error⟩ ∧
      stepsCalled (TearDownExecService rt s).calls = [.DeleteNamespace]) ∧
    (∀ e, rt.DeleteNamespace = none → rt.WaitForDeleteNamespace = some e →
      (TearDownExecService rt s).value = some e ∧
      stepsCalled (TearDownExecService rt s).calls
        = [.DeleteNamespace, .WaitForDeleteNamespace]) ∧
    ((TearDownExecService rt s).value = none ↔
      (rt.DeleteNamespace = none ∧ rt.WaitForDeleteNamespace = none)) := by
  obtain ⟨cn, td, ⟨tf, tfe⟩, wr, ap, wp, ⟨st, ste⟩⟩ := rs
  obtain ⟨dn, wd⟩ := rt
  refine ⟨?_, ?_, ?_, ?_, ?_, ?_, ?_, ?_, ?_, ?_⟩
  · intro e h
    simp only at h
    subst h
    cases s <;>
      simp [SetUpExecService, Errorf, execDeploymentNamespace, stepsCalled, setUpCallsCreate,
        Call.step]
  · intro e h1 h2
    simp only at h1 h2
    subst h1 h2
    cases s <;>
      simp [SetUpExecService, Errorf, stepsCalled, setUpCallsCreate, Call.step]
  · intro e h1 h2 h3
    simp only at h1 h2 h3
    subst h1 h2 h3
    cases s <;>
      simp [SetUpExecService, Errorf, stepsCalled, setUpCallsCreate, Call.step]
  · intro e h1 h2 h3 h4
    simp only at h1 h2 h3 h4
    subst h1 h2 h3 h4
    cases s <;>
      simp [SetUpExecService, Errorf, execDeploymentName, stepsCalled, setUpCallsCreate,
        Call.step]
  · intro e h1 h2 h3 h4 h5
    simp only at h1 h2 h3 h4 h5
    subst h1 h2 h3 h4 h5
    cases s <;>
      simp [SetUpExecService, stepsCalled, setUpCallsCreate, Call.step]
  · rintro e ⟨h1, h2, h3, h4, h5⟩ h6
    simp only at h1 h2 h3 h4 h5 h6
    subst h1 h2 h3 h4 h5 h6
    cases s <;>
      simp [SetUpExecService, Errorf, stepsCalled, setUpCallsCreate, Call.step]
  · cases cn <;> cases tfe <;> cases wr <;> cases ap <;> cases wp <;> cases ste <;>
      simp [SetUpExecService, waitForPodsOk]
  · intro e h
    simp only at h
    subst h
    cases s <;>
      simp [TearDownExecService, Errorf, execDeploymentNamespace, stepsCalled,
        tearDownCallsDelete, Call.step]
  · intro e h1 h2
    simp only at h1 h2
    subst h1 h2
    cases s <;>
      simp [TearDownExecService, stepsCalled, tearDownCallsDelete, Call.step]
  · cases dn <;> cases wd <;> simp [TearDownExecService]

/-- Witness of C9 amended: a failing `CreateNamespace` ends SetUp at once, with
the wrapped error. -/
theorem delegated_error_propagation_witness :
    (SetUpExecService setUpNamespaceFails none).value
      = some ⟨"namespace cluster-loader creation error: " ++ "forbidden"⟩ ∧
    stepsCalled (SetUpExecService setUpNamespaceFails none).calls = [.CreateNamespace] :=
  (delegated_error_propagation setUpNamespaceFails tearDownWaitFails none).1 ⟨"forbidden"⟩ rfl

end ExecService
